import Mathlib

/-!
Shallow embedding of the swap-routing core of `defi_protocol.py`
(multi-venue swap aggregation, arbitrage detection, gas-timing
optimization, orchestration).

Modelling conventions:
* All numeric quantities (Python `float` / `Decimal`) are modelled
  uniformly as real numbers; no claim below concerns floating-point
  rounding or `Decimal` precision, only the exact arithmetic the formulas
  denote.
* Python code that can raise inside the modelled fragment is embedded with
  `Except`.  `simulate_swap` raises on every call: its first statement
  divides by `Decimal(str(source_token.price_usd))`, which raises an
  untrapped `decimal.DivisionByZero` (or `InvalidOperation` when both
  prices are 0) whenever `source_token.price_usd == 0`, and otherwise
  line 261 multiplies the `float` value `amount_with_decimals` by the
  `Decimal` value `base_price`, which raises `TypeError` before any route
  is assembled.  The two conditions are embedded as the error values
  `SwapError.divisionByZero` and `SwapError.typeError`.
* Wall-clock timestamps (`datetime.now()`) are not modelled; the
  execution-log entry keeps every other field of the dictionary built by
  `DeFiManager.execute_swap`.
-/

/-- Supported blockchain networks (`class Chain(Enum)`). -/
inductive Chain where
  | ETHEREUM
  | POLYGON
  | ARBITRUM
  | OPTIMISM
  | BASE
deriving DecidableEq, Repr

/-- Supported decentralized exchanges (`class DEX(Enum)`). -/
inductive DEX where
  | UNISWAP_V3
  | UNISWAP_V2
  | ONE_INCH
  | CURVE
  | BALANCER
deriving DecidableEq, Repr

/-- Token metadata and pricing (`@dataclass TokenInfo`). -/
structure TokenInfo where
  address : String
  symbol : String
  name : String
  decimals : ℕ
  price_usd : ℝ := 0.0
  liquidity : ℝ := 0.0
  market_cap : ℝ := 0.0
  volume_24h : ℝ := 0.0

/-- Swap execution route with path and metrics (`@dataclass SwapRoute`). -/
structure SwapRoute where
  source_token : TokenInfo
  target_token : TokenInfo
  amount_in : ℝ
  expected_output : ℝ
  dex : DEX
  chain : Chain
  gas_estimate : ℝ
  price_impact : ℝ
  slippage : ℝ
  execution_time_seconds : ℕ := 15

/-- Total swap expense including gas (`SwapRoute.calculate_total_cost_usd`):
`gas_cost = gas_estimate * 50`, `swap_value = amount_in / 10 ** decimals`,
result `swap_value * (slippage / 100) + gas_cost`. -/
noncomputable def SwapRoute.calculate_total_cost_usd (self : SwapRoute) : ℝ :=
  let gas_cost := self.gas_estimate * 50
  let swap_value := self.amount_in / 10 ^ self.source_token.decimals
  swap_value * (self.slippage / 100) + gas_cost

/-- Total cost as the specification text words it: the swap value converted
to US dollars (amount in whole source-token units times the source unit
price) weighted by the slippage, plus the fixed gas conversion.  This
definition follows the words of the spec, for comparison with the source
function `SwapRoute.calculate_total_cost_usd` above. -/
noncomputable def spec_total_cost_usd (self : SwapRoute) : ℝ :=
  (self.amount_in / 10 ^ self.source_token.decimals) * self.source_token.price_usd
      * (self.slippage / 100) + self.gas_estimate * 50

/-- Byte-wise prefix test on character lists (helper for the substring
test used by `_is_stablecoin`). -/
def charsPrefix : List Char → List Char → Bool
  | [], _ => true
  | _ :: _, [] => false
  | c :: cs, d :: ds => c == d && charsPrefix cs ds

/-- Substring containment on character lists, modelling the Python
expression `pat in s`. -/
def charsContains (pat : List Char) : List Char → Bool
  | [] => charsPrefix pat []
  | d :: ds => charsPrefix pat (d :: ds) || charsContains pat ds

/-- Check if token is likely a stablecoin (`SwapAggregator._is_stablecoin`):
`any(stable in token.symbol.upper() for stable in stables)`; `.upper()` is
modelled character-wise with `Char.toUpper`. -/
def is_stablecoin (token : TokenInfo) : Bool :=
  let stables := ["USDC", "USDT", "DAI", "BUSD", "FRAX"]
  stables.any (fun stable => charsContains stable.data (token.symbol.data.map Char.toUpper))

/-- V3 concentrated liquidity slippage formula
(`SwapAggregator._calculate_v3_slippage`): the raw amount is normalized by
`1e18` (independently of any token's `decimals`), with a fallback of 1.0
when `liquidity <= 0`, otherwise `min(50.0, max(0.01, 100 * log(1 + ratio * 50)))`. -/
noncomputable def calculate_v3_slippage (amount : ℝ) (liquidity : ℝ) : ℝ :=
  let amount_float := amount / 10 ^ (18 : ℕ)
  if liquidity ≤ 0 then 1.0
  else
    let r := amount_float / liquidity
    min 50.0 (max 0.01 (100 * Real.log (1 + r * 50)))

/-- Uniswap V2 constant product slippage
(`SwapAggregator._calculate_constant_product_slippage`): amount normalized
by `1e18`, fallback 1.0 when `liquidity <= 0`, otherwise
`(ratio / (1 + ratio)) * 100` when `ratio > 0` and `0.01` otherwise. -/
noncomputable def calculate_constant_product_slippage (amount : ℝ) (liquidity : ℝ) : ℝ :=
  let amount_float := amount / 10 ^ (18 : ℕ)
  if liquidity ≤ 0 then 1.0
  else
    let r := amount_float / liquidity
    if r > 0 then (r / (1 + r)) * 100 else 0.01

/-- Errors raised inside the modelled fragment.  `divisionByZero` stands
for the untrapped `decimal.DivisionByZero` (or `decimal.InvalidOperation`
when `0/0`) raised by the base-price division of `simulate_swap` when
`source_token.price_usd == 0`; `typeError` stands for the `TypeError`
raised on every other call at line 261, where the `float` value
`amount_with_decimals` is multiplied by the `Decimal` value `base_price`. -/
inductive SwapError where
  | divisionByZero
  | typeError
deriving DecidableEq, Repr

/-- Route value that lines 231-274 of `simulate_swap` are written to
assemble.  In the real program the assembly never completes: line 261
raises `TypeError` (a `float` multiplied by a `Decimal`).  The venue
dispatch of lines 231-257 does complete before that raise, so the
`slippage` and `price_impact` fields of this value embed computations the
program actually performs; the remaining fields embed only the formulas
the unreachable lines 259-274 denote. -/
noncomputable def simRoute (source_token target_token : TokenInfo) (amount : ℝ)
    (chain : Chain) (dex : DEX) : SwapRoute :=
  let base_price := target_token.price_usd / source_token.price_usd
  let sgp : ℝ × ℝ × ℝ :=
    match dex with
    | DEX.UNISWAP_V3 =>
      let slippage := calculate_v3_slippage amount source_token.liquidity
      (slippage, 120000, slippage * 0.6)
    | DEX.UNISWAP_V2 =>
      let slippage := calculate_constant_product_slippage amount source_token.liquidity
      (slippage, 85000, slippage * 0.8)
    | DEX.ONE_INCH =>
      let slippage := calculate_v3_slippage amount source_token.liquidity * 0.7
      (slippage, 150000, slippage * 0.5)
    | DEX.CURVE =>
      let slippage :=
        if is_stablecoin source_token && is_stablecoin target_token then
          max 0.01 (calculate_constant_product_slippage amount source_token.liquidity * 0.1)
        else
          calculate_v3_slippage amount source_token.liquidity * 0.8
      (slippage, 95000, slippage * 0.4)
    | DEX.BALANCER => (0.5, 120000, 0.5)
  let slippage := sgp.1
  let gas_estimate := sgp.2.1
  let price_impact := sgp.2.2
  let amount_with_decimals := amount / 10 ^ source_token.decimals
  let expected_output_amount := amount_with_decimals * base_price * (1 - slippage / 100)
  let expected_output := expected_output_amount * 10 ^ target_token.decimals
  { source_token := source_token
    target_token := target_token
    amount_in := amount
    expected_output := max 0 expected_output
    dex := dex
    chain := chain
    gas_estimate := gas_estimate
    price_impact := price_impact
    slippage := slippage }

/-- Simulate swap across a DEX (`SwapAggregator.simulate_swap`).  The
function raises on every call: the base-price division of line 228 raises
`decimal.DivisionByZero` when `source_token.price_usd == 0`, and otherwise
line 261 (`amount_with_decimals * base_price`, a `float` multiplied by a
`Decimal`) raises `TypeError`, after the venue dispatch but before any
route is returned. -/
noncomputable def simulate_swap (source_token target_token : TokenInfo) (amount : ℝ)
    (chain : Chain) (dex : DEX) : Except SwapError SwapRoute :=
  if source_token.price_usd = 0 then Except.error SwapError.divisionByZero
  else Except.error SwapError.typeError

/-- Iteration order of the nested loops of `find_best_route`:
`for chain in chains: for dex in dexes:`. -/
def routePairs (chains : List Chain) (dexes : List DEX) : List (Chain × DEX) :=
  chains.flatMap (fun chain => dexes.map (fun dex => (chain, dex)))

/-- One step of the best-route accumulation inside
`SwapAggregator.find_best_route`: skip the route when its slippage exceeds
`max_slippage`, otherwise keep whichever of the current best and the new
route has the smaller `calculate_total_cost_usd` (strict improvement
required, so ties keep the earlier route; an empty accumulator, whose
score is `float('inf')`, always accepts). -/
noncomputable def better (max_slippage : ℝ) (best : Option SwapRoute)
    (route : SwapRoute) : Option SwapRoute :=
  if route.slippage > max_slippage then best
  else
    match best with
    | none => some route
    | some b =>
      if route.calculate_total_cost_usd < b.calculate_total_cost_usd then some route
      else some b

/-- Default DEX list used by `find_best_route` when `dexes is None`
(as in the call made by `DeFiManager.execute_swap`). -/
def defaultDexes : List DEX := [DEX.UNISWAP_V3, DEX.ONE_INCH, DEX.CURVE]

/-- Find optimal swap route across DEXes and chains
(`SwapAggregator.find_best_route`).  The Python loop simulates every
`(chain, dex)` pair in order and keeps the cheapest route whose slippage
passes the ceiling; an exception from `simulate_swap` propagates, which the
monadic fold reproduces. -/
noncomputable def find_best_route (source_token target_token : TokenInfo) (amount : ℝ)
    (chains : List Chain) (dexes : List DEX) (max_slippage : ℝ) :
    Except SwapError (Option SwapRoute) :=
  (routePairs chains dexes).foldlM
    (fun best cd =>
      (simulate_swap source_token target_token amount cd.1 cd.2).bind
        (fun route => Except.ok (better max_slippage best route)))
    none

/-- Round-trip profitability test of `find_arbitrage_opportunities`:
`output_after_round_trip = expected_output / 10 ** token_b.decimals`,
`final_amount = output_after_round_trip * (reverse.expected_output / reverse.amount_in)`,
profit percent relative to `amount / 10 ** token_a.decimals`. -/
noncomputable def round_trip_profit_percent (token_a token_b : TokenInfo) (amount : ℝ)
    (route_ab route_ba : SwapRoute) : ℝ :=
  let output_after_round_trip := route_ab.expected_output / 10 ^ token_b.decimals
  let final_amount := output_after_round_trip * (route_ba.expected_output / route_ba.amount_in)
  ((final_amount - amount / 10 ^ token_a.decimals) / (amount / 10 ^ token_a.decimals)) * 100

/-- Ranking key of `find_arbitrage_opportunities`:
`abs(float(x[0].expected_output) - float(x[1].amount_in))`. -/
noncomputable def arb_key (p : SwapRoute × SwapRoute) : ℝ :=
  |p.1.expected_output - p.2.amount_in|

/-- DEX list iterated by both legs of `find_arbitrage_opportunities`. -/
def arbDexes : List DEX := [DEX.UNISWAP_V3, DEX.ONE_INCH, DEX.CURVE]

/-- Identify arbitrage opportunities
(`SwapAggregator.find_arbitrage_opportunities`): simulate the three forward
routes A→B and the three reverse routes B→A on Ethereum, keep every pair
whose round-trip profit percent exceeds 0.5, and sort descending (Python
`sorted(..., reverse=True)`, a stable sort) by `arb_key`. -/
noncomputable def find_arbitrage_opportunities (token_a token_b : TokenInfo) (amount : ℝ) :
    Except SwapError (List (SwapRoute × SwapRoute)) :=
  (arbDexes.mapM (fun dex => simulate_swap token_a token_b amount Chain.ETHEREUM dex)).bind
    (fun routes_ab =>
      (arbDexes.mapM (fun dex => simulate_swap token_b token_a amount Chain.ETHEREUM dex)).bind
        (fun routes_ba =>
          let opportunities := routes_ab.flatMap (fun route_ab =>
            routes_ba.filterMap (fun route_ba =>
              if round_trip_profit_percent token_a token_b amount route_ab route_ba > 0.5 then
                some (route_ab, route_ba)
              else none))
          Except.ok (opportunities.mergeSort
            (fun x y => decide (arb_key y ≤ arb_key x)))))

/-- Gas optimization recommendations (`@dataclass GasOptimization`). -/
structure GasOptimization where
  current_gas_price : ℝ
  average_gas_price : ℝ
  recommended_gas_price : ℝ
  waiting_time_seconds : ℕ
  gas_savings_percent : ℝ
  priority : String

/-- Simulated gas-price tiers returned by `GasOptimizer.fetch_gas_prices`. -/
structure GasPrices where
  safe : ℝ
  standard : ℝ
  fast : ℝ

/-- Fetch current gas prices for a chain (`GasOptimizer.fetch_gas_prices`);
`Chain.BASE` is absent from the table and falls back to the default entry
`{"safe": 50, "standard": 70, "fast": 100}`. -/
def fetch_gas_prices : Chain → GasPrices
  | Chain.ETHEREUM => { safe := 45, standard := 55, fast := 70 }
  | Chain.POLYGON => { safe := 35, standard := 50, fast := 80 }
  | Chain.ARBITRUM => { safe := 0.1, standard := 0.15, fast := 0.25 }
  | Chain.OPTIMISM => { safe := 0.5, standard := 1.0, fast := 2.0 }
  | Chain.BASE => { safe := 50, standard := 70, fast := 100 }

/-- Branch structure of `GasOptimizer.calculate_optimization` after
`current_gwei` and `average_gwei` have been obtained (source lines 482-504):
the urgency classification, recommended price, waiting time and clamped
savings percentage as functions of the two price levels. -/
noncomputable def gas_decision (current_gwei average_gwei : ℝ) : GasOptimization :=
  let rpw : ℝ × String × ℕ :=
    if current_gwei > average_gwei * 1.3 then (average_gwei, "HIGH", 600)
    else if current_gwei > average_gwei * 1.1 then (average_gwei, "MEDIUM", 300)
    else (current_gwei, "LOW", 0)
  let recommended := rpw.1
  let savings_percent :=
    if current_gwei > 0 then (current_gwei - recommended) / current_gwei * 100 else 0
  { current_gas_price := current_gwei
    average_gas_price := average_gwei
    recommended_gas_price := recommended
    waiting_time_seconds := rpw.2.2
    gas_savings_percent := max 0 savings_percent
    priority := rpw.2.1 }

/-- Calculate gas optimization opportunity
(`GasOptimizer.calculate_optimization`): `current_gwei` is the chain's
"standard" price, the 24h average is simulated as `current_gwei * 1.1`, and
the decision logic of `gas_decision` is applied to that pair.  The
`gas_units` argument is accepted but never used by the computation. -/
noncomputable def calculate_optimization (chain : Chain) (gas_units : ℤ) : GasOptimization :=
  let current_gwei := (fetch_gas_prices chain).standard
  let average_gwei := current_gwei * 1.1
  gas_decision current_gwei average_gwei

/-- Flattened form of the execution dictionary appended to
`DeFiManager.execution_log` by `execute_swap` (the `datetime.now()`
timestamp is the only field not modelled). -/
structure Execution where
  source : String
  target : String
  amount : ℝ
  expected_output : ℝ
  dex : DEX
  chain : Chain
  slippage_percent : ℝ
  price_impact_percent : ℝ
  gas_units : ℝ
  total_cost_usd : ℝ
  gas_current_price_gwei : ℝ
  gas_recommended_price_gwei : ℝ
  gas_savings_percent : ℝ
  gas_priority : String

/-- Result value of `DeFiManager.execute_swap`: either the error
dictionary `{"status": "error", "message": ...}` or the execution record. -/
inductive SwapOutcome where
  | error (message : String)
  | executed (record : Execution)

/-- Execution-log entry assembled by the success path of
`DeFiManager.execute_swap` from the selected route and the gas
optimization computed alongside it. -/
noncomputable def execution_record (source_token target_token : TokenInfo) (amount : ℝ)
    (chain : Chain) (best_route : SwapRoute) : Execution :=
  let gas_opt := calculate_optimization chain ⌊best_route.gas_estimate⌋
  { source := source_token.symbol
    target := target_token.symbol
    amount := amount
    expected_output := best_route.expected_output / 10 ^ target_token.decimals
    dex := best_route.dex
    chain := chain
    slippage_percent := best_route.slippage
    price_impact_percent := best_route.price_impact
    gas_units := best_route.gas_estimate
    total_cost_usd := best_route.calculate_total_cost_usd
    gas_current_price_gwei := gas_opt.current_gas_price
    gas_recommended_price_gwei := gas_opt.recommended_gas_price
    gas_savings_percent := gas_opt.gas_savings_percent
    gas_priority := gas_opt.priority }

/-- Execute optimized swap with best route (`DeFiManager.execute_swap`),
parameterized by the two `TokenInfo` values produced by the external
`fetch_token_info` calls (with their `symbol` fields overwritten) and by
the current `execution_log`.  Returns the outcome together with the new
log: the error path leaves the log untouched, the success path appends
exactly the returned record. -/
noncomputable def execute_swap (source_token target_token : TokenInfo) (amount : ℝ)
    (chain : Chain) (max_slippage : ℝ) (execution_log : List Execution) :
    Except SwapError (SwapOutcome × List Execution) :=
  let amount_wei := amount * 10 ^ source_token.decimals
  (find_best_route source_token target_token amount_wei [chain] defaultDexes max_slippage).bind
    (fun best =>
      match best with
      | none => Except.ok (SwapOutcome.error ("No viable swap route found"), execution_log)
      | some best_route =>
        let record := execution_record source_token target_token amount chain best_route
        Except.ok (SwapOutcome.executed record, execution_log ++ [record]))

/-! Concrete tokens used by counterexamples and witnesses. -/

/-- Token shape returned by `fetch_token_info` when the pricing API fails:
`price_usd` defaults to `0.0` (degraded data), `decimals = 18`. -/
def degradedToken : TokenInfo :=
  { address := "0x0000000000000000000000000000000000000000", symbol := "ETH",
    name := "Token", decimals := 18, price_usd := 0, liquidity := 0 }

/-- A healthy target token for the C1 failing input. -/
def usdcToken : TokenInfo :=
  { address := "0xA0b86991c6218b36c1d19D4a2e9Eb0cE3606eB48", symbol := "USDC",
    name := "USD Coin", decimals := 6, price_usd := 1, liquidity := 1000000 }

/-- Stable counterpart of `usdcToken` for the Curve-venue claims. -/
def usdtToken : TokenInfo :=
  { address := "0xdAC17F958D2ee523a2206206994597C13D831ec7", symbol := "USDT",
    name := "Tether USD", decimals := 6, price_usd := 1, liquidity := 1000000 }

/-- Source token of the C4 counterexample: unit price far from one dollar. -/
def ethToken : TokenInfo :=
  { address := "0xC02aaA39b223FE8D0A0e5C4F27eAD9083C756Cc2", symbol := "ETH",
    name := "Ether", decimals := 0, price_usd := 2500, liquidity := 300000000 }

/-- RouteCandidate used to separate the code's total-cost formula from the
USD-denominated formula of the specification text. -/
def cexRoute : SwapRoute :=
  { source_token := ethToken, target_token := usdcToken, amount_in := 1,
    expected_output := 0, dex := DEX.UNISWAP_V3, chain := Chain.ETHEREUM,
    gas_estimate := 0, price_impact := 0.6, slippage := 1 }

/-- C1: at the degraded source token (`price_usd = 0`, exactly what
`fetch_token_info` produces on any API failure) `simulate_swap` does not
return a zero-rate route: it propagates the `decimal.DivisionByZero`
raised by the base-price division, modelled as the error value. -/
theorem C1_simulate_swap_zero_price_is_error :
    simulate_swap degradedToken usdcToken 1000 Chain.ETHEREUM DEX.UNISWAP_V3 =
      Except.error SwapError.divisionByZero := by
  simp [simulate_swap, degradedToken]

/-- C2: the urgency-classification logic of the fee-timing optimizer
(`gas_decision`, the branch block of `calculate_optimization`), applied to
current level 100 and trailing-average level 50, recommends urgency HIGH,
a 600 second wait, recommended level 50 and savings of 50 percent. -/
theorem C2_gas_decision_high_100_50 :
    gas_decision 100 50 =
      { current_gas_price := 100, average_gas_price := 50,
        recommended_gas_price := 50, waiting_time_seconds := 600,
        gas_savings_percent := 50, priority := "HIGH" } := by
  simp only [gas_decision]
  norm_num

/-- Helper: the decision logic applied to a positive current level and the
internally simulated average `current * 1.1` always lands in the LOW
branch with zero wait and zero savings. -/
theorem gas_decision_simulated_avg (c : ℝ) (hc : 0 < c) :
    gas_decision c (c * 1.1) =
      { current_gas_price := c, average_gas_price := c * 1.1,
        recommended_gas_price := c, waiting_time_seconds := 0,
        gas_savings_percent := 0, priority := "LOW" } := by
  have h1 : ¬ (c > c * 1.1 * 1.3) := by nlinarith
  have h2 : ¬ (c > c * 1.1 * 1.1) := by nlinarith
  simp only [gas_decision, h1, h2, if_false, hc, if_true]
  norm_num

/-- C3: for every chain and every gas-unit count, `calculate_optimization`
returns priority LOW, zero waiting time, zero savings and a recommended
price equal to the current price — the simulated 24h average
`current * 1.1` makes both waiting branches unreachable. -/
theorem C3_calculate_optimization_always_low (chain : Chain) (gas_units : ℤ) :
    (calculate_optimization chain gas_units).priority = "LOW" ∧
    (calculate_optimization chain gas_units).waiting_time_seconds = 0 ∧
    (calculate_optimization chain gas_units).gas_savings_percent = 0 ∧
    (calculate_optimization chain gas_units).recommended_gas_price =
      (calculate_optimization chain gas_units).current_gas_price := by
  have hc : 0 < (fetch_gas_prices chain).standard := by
    cases chain <;> norm_num [fetch_gas_prices]
  rw [calculate_optimization, gas_decision_simulated_avg _ hc]
  exact ⟨rfl, rfl, rfl, rfl⟩

/-- C4 counterexample: on a route whose source token costs 2500 dollars a
unit, the code's total cost (0.01) differs from the specification's
USD-denominated formula (25): `calculate_total_cost_usd` never converts
the swap value to dollars. -/
theorem C4_counterexample :
    cexRoute.calculate_total_cost_usd ≠ spec_total_cost_usd cexRoute := by
  simp only [SwapRoute.calculate_total_cost_usd, spec_total_cost_usd, cexRoute, ethToken]
  norm_num

/-- C4 (amended): the total cost equals the trade amount expressed in whole
source-token units — `amount_in / 10 ^ decimals`, not converted to USD —
times `slippage / 100`, plus the gas-unit estimate times the fixed
50-per-unit reference price. -/
theorem C4_total_cost_formula (route : SwapRoute) :
    route.calculate_total_cost_usd =
      route.amount_in / 10 ^ route.source_token.decimals * (route.slippage / 100)
        + route.gas_estimate * 50 := rfl

/-! Helper lemmas about the venue slippage formulas. -/

/-- With positive depth the V3 formula takes its clamped-logarithm branch. -/
theorem calculate_v3_slippage_pos_depth (amount depth : ℝ) (hd : 0 < depth) :
    calculate_v3_slippage amount depth =
      min 50.0 (max 0.01 (100 * Real.log (1 + amount / 10 ^ (18 : ℕ) / depth * 50))) := by
  simp only [calculate_v3_slippage]
  rw [if_neg (not_le.mpr hd)]

/-- With positive amount and depth the constant-product formula takes its
`ratio / (1 + ratio)` branch. -/
theorem calculate_constant_product_slippage_pos (amount depth : ℝ)
    (ha : 0 < amount) (hd : 0 < depth) :
    calculate_constant_product_slippage amount depth =
      amount / 10 ^ (18 : ℕ) / depth / (1 + amount / 10 ^ (18 : ℕ) / depth) * 100 := by
  have hr : (0 : ℝ) < amount / 10 ^ (18 : ℕ) / depth := by positivity
  simp only [calculate_constant_product_slippage]
  rw [if_neg (not_le.mpr hd), if_pos hr]

/-- Slippage field produced by the Curve branch of `simulate_swap`. -/
theorem simRoute_slippage_curve (a b : TokenInfo) (amount : ℝ) (chain : Chain) :
    (simRoute a b amount chain DEX.CURVE).slippage =
      if is_stablecoin a && is_stablecoin b then
        max 0.01 (calculate_constant_product_slippage amount a.liquidity * 0.1)
      else calculate_v3_slippage amount a.liquidity * 0.8 := rfl

/-- Slippage field produced by the Uniswap-V2 branch of `simulate_swap`. -/
theorem simRoute_slippage_v2 (a b : TokenInfo) (amount : ℝ) (chain : Chain) :
    (simRoute a b amount chain DEX.UNISWAP_V2).slippage =
      calculate_constant_product_slippage amount a.liquidity := rfl

/-- C5: for every positive amount and positive depth, both venue slippage
formulas return a value in `[0, 100]`, and for a fixed depth each is
monotonically non-decreasing in the amount. -/
theorem C5_slippage_range_mono (amount amount2 depth : ℝ)
    (h1 : 0 < amount) (h2 : 0 < amount2) (hd : 0 < depth) (hle : amount ≤ amount2) :
    (0 ≤ calculate_v3_slippage amount depth ∧ calculate_v3_slippage amount depth ≤ 100) ∧
    (0 ≤ calculate_constant_product_slippage amount depth ∧
      calculate_constant_product_slippage amount depth ≤ 100) ∧
    calculate_v3_slippage amount depth ≤ calculate_v3_slippage amount2 depth ∧
    calculate_constant_product_slippage amount depth ≤
      calculate_constant_product_slippage amount2 depth := by
  have hr1 : (0 : ℝ) < amount / 10 ^ (18 : ℕ) / depth := by positivity
  have hr2 : (0 : ℝ) < amount2 / 10 ^ (18 : ℕ) / depth := by positivity
  have hrle : amount / 10 ^ (18 : ℕ) / depth ≤ amount2 / 10 ^ (18 : ℕ) / depth := by gcongr
  rw [calculate_v3_slippage_pos_depth amount depth hd,
    calculate_v3_slippage_pos_depth amount2 depth hd,
    calculate_constant_product_slippage_pos amount depth h1 hd,
    calculate_constant_product_slippage_pos amount2 depth h2 hd]
  refine ⟨⟨?_, ?_⟩, ⟨?_, ?_⟩, ?_, ?_⟩
  · exact le_min (by norm_num) (le_trans (by norm_num) (le_max_left _ _))
  · exact le_trans (min_le_left _ _) (by norm_num)
  · positivity
  · have hfrac : amount / 10 ^ (18 : ℕ) / depth / (1 + amount / 10 ^ (18 : ℕ) / depth) ≤ 1 :=
      (div_le_one (by linarith)).mpr (by linarith)
    nlinarith
  · refine min_le_min le_rfl (max_le_max le_rfl ?_)
    have hlog : Real.log (1 + amount / 10 ^ (18 : ℕ) / depth * 50) ≤
        Real.log (1 + amount2 / 10 ^ (18 : ℕ) / depth * 50) :=
      Real.log_le_log (by nlinarith) (by nlinarith)
    nlinarith
  · have hkey : amount / 10 ^ (18 : ℕ) / depth / (1 + amount / 10 ^ (18 : ℕ) / depth) ≤
        amount2 / 10 ^ (18 : ℕ) / depth / (1 + amount2 / 10 ^ (18 : ℕ) / depth) := by
      rw [div_le_div_iff₀ (by linarith) (by linarith)]
      nlinarith
    nlinarith

/-- C5 witness: the range and monotonicity facts instantiated at amounts 1
and 2 with depth 5. -/
theorem C5_witness :
    ((0 : ℝ) < 1 ∧ (0 : ℝ) < 2 ∧ (0 : ℝ) < 5 ∧ (1 : ℝ) ≤ 2) ∧
    ((0 ≤ calculate_v3_slippage 1 5 ∧ calculate_v3_slippage 1 5 ≤ 100) ∧
      (0 ≤ calculate_constant_product_slippage 1 5 ∧
        calculate_constant_product_slippage 1 5 ≤ 100) ∧
      calculate_v3_slippage 1 5 ≤ calculate_v3_slippage 2 5 ∧
      calculate_constant_product_slippage 1 5 ≤ calculate_constant_product_slippage 2 5) :=
  ⟨⟨by norm_num, by norm_num, by norm_num, by norm_num⟩,
    C5_slippage_range_mono 1 2 5 (by norm_num) (by norm_num) (by norm_num) (by norm_num)⟩

/-- C8 counterexample: for the stable pair USDC/USDT with raw amount
`10^18` against depth `10^6`, the constant-product slippage is
`100 / 1000001`, whose tenth is below the Curve floor `0.01`; the Curve
venue therefore returns `0.01`, which exceeds one tenth of the
constant-product slippage. -/
theorem C8_counterexample :
    ¬ ((simRoute usdcToken usdtToken (10 ^ (18 : ℕ)) Chain.ETHEREUM DEX.CURVE).slippage ≤
        (simRoute usdcToken usdtToken (10 ^ (18 : ℕ)) Chain.ETHEREUM
          DEX.UNISWAP_V2).slippage / 10) := by
  have hst : (is_stablecoin usdcToken && is_stablecoin usdtToken) = true := by decide
  have hliq : usdcToken.liquidity = 1000000 := rfl
  have hcp : calculate_constant_product_slippage (10 ^ (18 : ℕ)) usdcToken.liquidity =
      100 / 1000001 := by
    rw [hliq, calculate_constant_product_slippage_pos _ _ (by positivity) (by norm_num)]
    norm_num
  rw [simRoute_slippage_curve, simRoute_slippage_v2, hcp]
  simp only [hst, if_true]
  rw [max_eq_left (by norm_num)]
  norm_num

/-- C8 (amended): for recognized stable tokens the Curve venue's slippage
is `max(0.01, cp * 0.1)`, hence at most the maximum of the `0.01` floor and
one tenth of the constant-product venue's slippage at equal amount and
depth (and so at most one tenth of it whenever that tenth reaches the
floor). -/
theorem C8_amended_stable_slippage (a b : TokenInfo) (amount : ℝ) (chain : Chain)
    (ha : is_stablecoin a = true) (hb : is_stablecoin b = true) :
    (simRoute a b amount chain DEX.CURVE).slippage ≤
      max 0.01 ((simRoute a b amount chain DEX.UNISWAP_V2).slippage / 10) := by
  rw [simRoute_slippage_curve, simRoute_slippage_v2]
  simp only [ha, hb, Bool.and_self, if_true]
  have hdiv : calculate_constant_product_slippage amount a.liquidity * 0.1 =
      calculate_constant_product_slippage amount a.liquidity / 10 := by ring
  rw [hdiv]

/-- C8 witness: the amended bound instantiated at the USDC/USDT pair. -/
theorem C8_witness :
    (is_stablecoin usdcToken = true ∧ is_stablecoin usdtToken = true) ∧
    (simRoute usdcToken usdtToken 1000 Chain.ETHEREUM DEX.CURVE).slippage ≤
      max 0.01 ((simRoute usdcToken usdtToken 1000 Chain.ETHEREUM
        DEX.UNISWAP_V2).slippage / 10) :=
  ⟨⟨by decide, by decide⟩,
    C8_amended_stable_slippage usdcToken usdtToken 1000 Chain.ETHEREUM
      (by decide) (by decide)⟩

/-! Helper lemmas for the raising simulation. -/

/-- With a non-zero source price the simulation passes the base-price
division and raises the line-261 `TypeError`. -/
theorem simulate_swap_raises (source_token target_token : TokenInfo) (amount : ℝ)
    (chain : Chain) (dex : DEX) (h : source_token.price_usd ≠ 0) :
    simulate_swap source_token target_token amount chain dex =
      Except.error SwapError.typeError := by
  rw [simulate_swap, if_neg h]

/-- The selection loop of `find_best_route` propagates the `TypeError` of
its very first simulation whenever there is at least one chain and one
venue to try and the source price is non-zero. -/
theorem find_best_route_head_raises (source_token target_token : TokenInfo) (amount : ℝ)
    (chain : Chain) (chains : List Chain) (dex : DEX) (dexes : List DEX)
    (max_slippage : ℝ) (h : source_token.price_usd ≠ 0) :
    find_best_route source_token target_token amount (chain :: chains) (dex :: dexes)
      max_slippage = Except.error SwapError.typeError := by
  have hsim := simulate_swap_raises source_token target_token amount chain dex h
  simp only [find_best_route, routePairs, List.flatMap_cons, List.map_cons,
    List.cons_append, List.foldlM_cons, hsim]
  rfl

/-- C6: contrary to the claim, `find_best_route` never completes its
selection: at a failing input with a resolvable source price, one chain
and one venue, it propagates the line-261 `TypeError` of the first
simulation instead of returning `none` or a minimal-cost candidate. -/
theorem C6_find_best_route_raises :
    find_best_route usdcToken usdtToken 1000 [Chain.ETHEREUM] [DEX.UNISWAP_V3] 5 =
      Except.error SwapError.typeError :=
  find_best_route_head_raises usdcToken usdtToken 1000 Chain.ETHEREUM [] DEX.UNISWAP_V3
    [] 5 (by norm_num [usdcToken])

/-- C7: contrary to the claim, the arbitrage detector returns no list at
all: its first forward simulation (resolvable prices) raises the line-261
`TypeError` and the exception propagates out of
`find_arbitrage_opportunities`. -/
theorem C7_find_arbitrage_raises :
    find_arbitrage_opportunities ethToken usdcToken 1000 =
      Except.error SwapError.typeError := by
  have hsim := simulate_swap_raises ethToken usdcToken 1000 Chain.ETHEREUM DEX.UNISWAP_V3
    (by norm_num [ethToken])
  simp only [find_arbitrage_opportunities, arbDexes, List.mapM_cons, hsim]
  rfl

/-- C9: contrary to the claim, `execute_swap` neither returns the explicit
error result nor appends a record: the `TypeError` raised inside the first
simulation of the route search propagates out of `execute_swap`, so no
outcome and no updated log are ever produced (with the degraded zero price
of a failed fetch the same happens with `DivisionByZero`). -/
theorem C9_execute_swap_raises :
    execute_swap usdcToken usdtToken 1 Chain.ETHEREUM 5 [] =
      Except.error SwapError.typeError := by
  have hfb := find_best_route_head_raises usdcToken usdtToken
    (1 * 10 ^ usdcToken.decimals) Chain.ETHEREUM [] DEX.UNISWAP_V3
    [DEX.ONE_INCH, DEX.CURVE] 5 (by norm_num [usdcToken])
  simp only [execute_swap, defaultDexes, hfb]
  rfl

/-- C10 counterexample: for two source tokens that differ only in their
decimals field (6 versus 18, all other fields those of USDC),
`simulate_swap` produces no routes whose slippage could be compared — both
calls raise the line-261 `TypeError` instead of returning a
RouteCandidate. -/
theorem C10_counterexample :
    simulate_swap { usdcToken with decimals := 6 } usdtToken 1000 Chain.ETHEREUM
        DEX.UNISWAP_V3 = Except.error SwapError.typeError ∧
    simulate_swap { usdcToken with decimals := 18 } usdtToken 1000 Chain.ETHEREUM
        DEX.UNISWAP_V3 = Except.error SwapError.typeError :=
  ⟨simulate_swap_raises _ _ _ _ _ (by norm_num [usdcToken]),
    simulate_swap_raises _ _ _ _ _ (by norm_num [usdcToken])⟩

/-- C10 (amended): for two source tokens differing only in their decimals
field, `simulate_swap` behaves identically — it raises the same exception
at every input, the decimals never influencing which — and the venue
pricing computations that do complete before the raise (the slippage and
price-impact selections of lines 231-257, embedded as the corresponding
fields of `simRoute`) yield identical values, because the slippage
helpers normalize the raw amount by `10^18` regardless of the declared
decimals. -/
theorem C10_decimals_invariance (t : TokenInfo) (d1 d2 : ℕ) (target_token : TokenInfo)
    (amount : ℝ) (chain : Chain) (dex : DEX) :
    simulate_swap { t with decimals := d1 } target_token amount chain dex =
      simulate_swap { t with decimals := d2 } target_token amount chain dex ∧
    (simRoute { t with decimals := d1 } target_token amount chain dex).slippage =
      (simRoute { t with decimals := d2 } target_token amount chain dex).slippage ∧
    (simRoute { t with decimals := d1 } target_token amount chain dex).price_impact =
      (simRoute { t with decimals := d2 } target_token amount chain dex).price_impact := by
  refine ⟨rfl, ?_, ?_⟩
  · cases dex <;> rfl
  · cases dex <;> rfl
